import Mathlib

/-!
Shallow embedding of the lifecycle-orchestration core of the
UBenchAI / InferBench framework (`src/inferbench`), together with
theorems settling the specification claims about it.

Conventions of the embedding:
* Python `datetime` values are modelled as `Int` timestamps (seconds);
  `datetime.now()` becomes an explicit `now : Int` parameter.
* Python dicts keyed by strings are modelled as association lists
  `List (String × α)`; dict assignment replaces in place, preserving
  insertion order, as CPython does.
* Registry persistence is modelled by carrying the persisted snapshot and a
  count of persistence writes inside the registry state; the byte-level
  write strategy of `_persist_state` is modelled separately (see `Persist`).
* Fallible Python code (raising exceptions) is modelled with `Except`;
  functions returning booleans for missing ids return `Bool` paired with
  the (possibly unchanged) state.
-/

namespace InferBench

/-- `ServiceStatus` enum from `core/models.py`. -/
inductive ServiceStatus where
  | pending
  | starting
  | running
  | stopping
  | stopped
  | error
  | unknown
deriving DecidableEq, Repr

/-- `RunStatus` enum from `core/models.py`. -/
inductive RunStatus where
  | submitted
  | queued
  | running
  | completed
  | failed
  | canceled
  | unknown
deriving DecidableEq, Repr

/-- `ServiceInstance` from `core/models.py` (the recipe snapshot payload is
not interpreted by any registry or manager operation and is omitted;
`recipe_name` stands for the recipe reference). -/
structure ServiceInstance where
  id : String
  recipe_name : String
  status : ServiceStatus := .pending
  slurm_job_id : Option String := none
  node : Option String := none
  endpoints : List (String × String) := []
  created_at : Int := 0
  started_at : Option Int := none
  stopped_at : Option Int := none
  error_message : Option String := none
deriving DecidableEq, Repr

/-- `ServiceInstance.get_endpoint`: look up an endpoint URL by port name. -/
def ServiceInstance.get_endpoint (s : ServiceInstance) (port_name : String) :
    Option String :=
  (s.endpoints.find? (fun p => p.1 = port_name)).map (fun p => p.2)

/-- `ClientRun` from `core/models.py` (recipe payload omitted as above). -/
structure ClientRun where
  id : String
  recipe_name : String
  status : RunStatus := .submitted
  slurm_job_id : Option String := none
  node : Option String := none
  target_service_id : Option String := none
  created_at : Int := 0
  started_at : Option Int := none
  completed_at : Option Int := none
  results_path : Option String := none
  error_message : Option String := none
deriving DecidableEq, Repr

/-! ### Structural models of the Python string operations used by the code.
Lean's own `String.toUpper`, `String.endsWith`, ... are defined by
well-founded recursion on positions and do not reduce in the kernel, so the
embedding models Python's `str` methods directly on the character list. -/

/-- Python `str.upper()` (ASCII case mapping). -/
def upperStr (s : String) : String := ⟨s.data.map Char.toUpper⟩

/-- Python `str.endswith(suffix)`. -/
def endsWithStr (s suffix : String) : Bool := suffix.data.isSuffixOf s.data

/-- Python `str.startswith(t)`. -/
def startsWithStr (s t : String) : Bool := t.data.isPrefixOf s.data

/-- Helper of `splitLines`: accumulate the current line (reversed). -/
def splitLinesAux : List Char → List Char → List String
  | [], acc => [⟨acc.reverse⟩]
  | c :: rest, acc =>
    if c = '\n' then ⟨acc.reverse⟩ :: splitLinesAux rest []
    else splitLinesAux rest (c :: acc)

/-- Python `str.split("\n")`. -/
def splitLines (s : String) : List String := splitLinesAux s.data []

/-- Helper of `splitWs`: accumulate the current token (reversed). -/
def splitWsAux : List Char → List Char → List String
  | [], acc => if acc.isEmpty then [] else [⟨acc.reverse⟩]
  | c :: rest, acc =>
    if c.isWhitespace then
      if acc.isEmpty then splitWsAux rest []
      else ⟨acc.reverse⟩ :: splitWsAux rest []
    else splitWsAux rest (c :: acc)

/-- Python `str.split()` with no argument: whitespace-delimited tokens,
empty tokens discarded. -/
def splitWs (s : String) : List String := splitWsAux s.data []

/-- Python `str.strip()`. -/
def stripStr (s : String) : String :=
  ⟨((s.data.dropWhile Char.isWhitespace).reverse.dropWhile
      Char.isWhitespace).reverse⟩

/-- Association-list lookup used for the registry dicts. -/
def alookup {α : Type} (l : List (String × α)) (k : String) : Option α :=
  (l.find? (fun p => p.1 = k)).map (fun p => p.2)

/-- CPython dict assignment `d[k] = v`: replace in place if the key exists
(preserving insertion order), otherwise append. -/
def aset {α : Type} (l : List (String × α)) (k : String) (v : α) :
    List (String × α) :=
  if (l.find? (fun p => p.1 = k)).isSome then
    l.map (fun p => if p.1 = k then (k, v) else p)
  else
    l ++ [(k, v)]

/-- CPython dict deletion `del d[k]`. -/
def adel {α : Type} (l : List (String × α)) (k : String) :
    List (String × α) :=
  l.filter (fun p => ¬ p.1 = k)

/-- Error raised by `ServiceRegistry.get` and the server manager when a
service cannot be found (`core/exceptions.py`). -/
structure ServiceNotFoundError where
  service_id : String
deriving DecidableEq, Repr

/-- State of a `ServiceRegistry` (`core/registry.py`).  `file` is the content
of the persistence file as the snapshot it holds (`none` before any write);
`writes` counts the persistence writes performed, so that "no persistence
write is triggered" is visible in the state. -/
structure ServiceRegistry where
  services : List (String × ServiceInstance) := []
  file : Option (List (String × ServiceInstance)) := none
  writes : Nat := 0
deriving DecidableEq, Repr

/-- `ServiceRegistry._persist_state`: rewrite the persisted snapshot
wholesale from the in-memory map. -/
def ServiceRegistry.persist_state (r : ServiceRegistry) : ServiceRegistry :=
  { r with file := some r.services, writes := r.writes + 1 }

/-- `ServiceRegistry.register`: insert-or-replace by id, then persist. -/
def ServiceRegistry.register (r : ServiceRegistry) (s : ServiceInstance) :
    Bool × ServiceRegistry :=
  (true, ServiceRegistry.persist_state { r with services := aset r.services s.id s })

/-- `ServiceRegistry.unregister`: remove by id; `false` (no mutation, no
persistence write) when the id is absent. -/
def ServiceRegistry.unregister (r : ServiceRegistry) (service_id : String) :
    Bool × ServiceRegistry :=
  if (alookup r.services service_id).isSome then
    (true, ServiceRegistry.persist_state { r with services := adel r.services service_id })
  else
    (false, r)

/-- `ServiceRegistry.get`: raises `ServiceNotFoundError` when absent. -/
def ServiceRegistry.get (r : ServiceRegistry) (service_id : String) :
    Except ServiceNotFoundError ServiceInstance :=
  match alookup r.services service_id with
  | some s => .ok s
  | none => .error ⟨service_id⟩

/-- `ServiceRegistry.get_by_job_id`: linear scan for the first service whose
`slurm_job_id` equals the given job id; `none` when no service matches. -/
def ServiceRegistry.get_by_job_id (r : ServiceRegistry) (job_id : String) :
    Option ServiceInstance :=
  (r.services.find? (fun p => p.2.slurm_job_id = some job_id)).map (fun p => p.2)

/-- The terminal statuses of a service, as the list
`[ServiceStatus.STOPPED, ServiceStatus.ERROR]` used throughout
`registry.py` and `servers/manager.py`. -/
def serviceTerminal (s : ServiceStatus) : Bool :=
  s = .stopped ∨ s = .error

/-- `ServiceRegistry.update_status`: set the status unconditionally, record a
truthy error message, stamp `started_at` on a transition into RUNNING when it
is not yet set, stamp `stopped_at` on any update into STOPPED or ERROR; then
persist.  Returns `false` (no mutation, no persistence write) when the id is
absent.  `now` models `datetime.now()`. -/
def ServiceRegistry.update_status (r : ServiceRegistry) (service_id : String)
    (status : ServiceStatus) (error_message : Option String) (now : Int) :
    Bool × ServiceRegistry :=
  match alookup r.services service_id with
  | none => (false, r)
  | some service =>
    let service := { service with status := status }
    let service :=
      match error_message with
      | some m => if m = "" then service else { service with error_message := some m }
      | none => service
    let service :=
      if status = ServiceStatus.running ∧ service.started_at = none then
        { service with started_at := some now }
      else if status = ServiceStatus.stopped ∨ status = ServiceStatus.error then
        { service with stopped_at := some now }
      else
        service
    (true, ServiceRegistry.persist_state
      { r with services := aset r.services service_id service })

/-- `ServiceRegistry.update_node`: `false` without mutation when absent. -/
def ServiceRegistry.update_node (r : ServiceRegistry) (service_id : String)
    (node : String) : Bool × ServiceRegistry :=
  match alookup r.services service_id with
  | none => (false, r)
  | some service =>
    (true, ServiceRegistry.persist_state
      { r with services := aset r.services service_id { service with node := some node } })

/-- `ServiceRegistry.update_endpoints`: `false` without mutation when absent. -/
def ServiceRegistry.update_endpoints (r : ServiceRegistry) (service_id : String)
    (endpoints : List (String × String)) : Bool × ServiceRegistry :=
  match alookup r.services service_id with
  | none => (false, r)
  | some service =>
    (true, ServiceRegistry.persist_state
      { r with services := aset r.services service_id { service with endpoints := endpoints } })

/-- The staleness test of `ServiceRegistry.cleanup_stale`: terminal status and
a stamped `stopped_at` strictly older than `max_age_hours`.  The source
compares `(now - stopped_at).total_seconds() / 3600 > max_age_hours`; over
exact arithmetic this is `now - t > max_age_hours * 3600`. -/
def staleService (now : Int) (max_age_hours : Int) (s : ServiceInstance) : Bool :=
  serviceTerminal s.status &&
    match s.stopped_at with
    | some t => now - t > max_age_hours * 3600
    | none => false

/-- `ServiceRegistry.cleanup_stale`: collect the stale ids, delete each of
them, persist only when something was removed, return the count removed. -/
def ServiceRegistry.cleanup_stale (r : ServiceRegistry) (now : Int)
    (max_age_hours : Int) : Nat × ServiceRegistry :=
  let stale_ids := (r.services.filter (fun p => staleService now max_age_hours p.2)).map
    (fun p => p.1)
  let remaining := stale_ids.foldl adel r.services
  if stale_ids.isEmpty then
    (stale_ids.length, { r with services := remaining })
  else
    (stale_ids.length, ServiceRegistry.persist_state { r with services := remaining })

/-- The terminal statuses of a client run, as the list
`[RunStatus.COMPLETED, RunStatus.FAILED, RunStatus.CANCELED]` used in
`RunRegistry.update_status`. -/
def runTerminal (s : RunStatus) : Bool :=
  s = .completed ∨ s = .failed ∨ s = .canceled

/-- State of a `RunRegistry` (`core/registry.py`). -/
structure RunRegistry where
  runs : List (String × ClientRun) := []
  file : Option (List (String × ClientRun)) := none
  writes : Nat := 0
deriving DecidableEq, Repr

/-- `RunRegistry._persist_state`. -/
def RunRegistry.persist_state (r : RunRegistry) : RunRegistry :=
  { r with file := some r.runs, writes := r.writes + 1 }

/-- `RunRegistry.update_status`: set the status unconditionally, record a
truthy error message, stamp `started_at` on a transition into RUNNING when it
is not yet set, stamp `completed_at` on any update into COMPLETED, FAILED or
CANCELED; then persist.  Returns `false` without mutation when absent. -/
def RunRegistry.update_status (r : RunRegistry) (run_id : String)
    (status : RunStatus) (error_message : Option String) (now : Int) :
    Bool × RunRegistry :=
  match alookup r.runs run_id with
  | none => (false, r)
  | some run =>
    let run := { run with status := status }
    let run :=
      match error_message with
      | some m => if m = "" then run else { run with error_message := some m }
      | none => run
    let run :=
      if status = RunStatus.running ∧ run.started_at = none then
        { run with started_at := some now }
      else if runTerminal status then
        { run with completed_at := some now }
      else
        run
    (true, RunRegistry.persist_state { r with runs := aset r.runs run_id run })

/-! ### SLURM orchestrator (`core/slurm.py`) -/

/-- `SlurmError` from `core/exceptions.py`: carries the failed `operation`,
a `reason`, and an optional `job_id`. -/
structure SlurmError where
  operation : String
  reason : String
  job_id : Option String := none
deriving DecidableEq, Repr

/-- `SlurmJobInfo` dataclass from `core/slurm.py`. -/
structure SlurmJobInfo where
  job_id : String
  name : String
  state : String
  node : Option String
  partition : String
  time_used : String
  reason : Option String := none
deriving DecidableEq, Repr

/-- `SlurmOrchestrator.get_job_info`: two-tier lookup.  `active` is the row
parsed from the active-queue query (`squeue`), present exactly when that
query succeeded with a parseable row; `accounting` is the row parsed from the
historical-accounting query (`sacct`), consulted only when the active queue
yields nothing.  All command failures and parse failures inside the source
are caught and become `none`. -/
def get_job_info (active : Option SlurmJobInfo) (accounting : Option SlurmJobInfo) :
    Option SlurmJobInfo :=
  match active with
  | some info => some info
  | none => accounting

/-- The fixed state-mapping table inside `SlurmOrchestrator.get_job_status`,
applied to the uppercased scheduler state token. -/
def mapSlurmState (state : String) : ServiceStatus :=
  if state ∈ ["RUNNING", "R"] then .running
  else if state ∈ ["PENDING", "PD", "CONFIGURING", "CF"] then .pending
  else if state ∈ ["COMPLETING", "CG"] then .stopping
  else if state ∈ ["COMPLETED", "CD"] then .stopped
  else if state ∈ ["FAILED", "F", "TIMEOUT", "TO", "CANCELLED", "CA", "NODE_FAIL", "NF"]
    then .error
  else .unknown

/-- `SlurmOrchestrator.get_job_status`: `UNKNOWN` when neither view yields a
row, otherwise the mapping table applied to the uppercased state. -/
def get_job_status (active : Option SlurmJobInfo) (accounting : Option SlurmJobInfo) :
    ServiceStatus :=
  match get_job_info active accounting with
  | none => .unknown
  | some info => mapSlurmState (upperStr info.state)

/-- The literal acknowledgement text preceding the job id in the pattern
`r"Submitted batch job (\d+)"` of `SlurmOrchestrator.submit_job`. -/
def sbatchAck : String := "Submitted batch job "

/-- Left-to-right scan for the first position where `sbatchAck` is followed
by at least one digit; returns the maximal digit run there, exactly as
`re.search(r"Submitted batch job (\d+)", stdout)` does. -/
def scanJobId : List Char → Option (List Char)
  | [] => none
  | c :: rest =>
    let here := c :: rest
    if sbatchAck.data.isPrefixOf here then
      let digits := (here.drop sbatchAck.length).takeWhile Char.isDigit
      if digits.isEmpty then scanJobId rest else some digits
    else
      scanJobId rest

/-- The job-id parsing step of `SlurmOrchestrator.submit_job`: the digits of
the first regex match, or a `SlurmError` with operation `"submit"`. -/
def submit_job_parse (stdout : String) : Except SlurmError String :=
  match scanJobId stdout.data with
  | some digits => .ok (String.mk digits)
  | none => .error ⟨"submit", "Could not parse job ID from: " ++ stdout, none⟩

/-- A nonempty all-digit whitespace-delimited token. -/
def isNumericTok (t : String) : Bool :=
  ¬ t.isEmpty && t.data.all Char.isDigit

/-- Modelled from the spec: the "last numeric token" of one printed line —
the last whitespace-delimited token consisting of digits. -/
def lineLastNumericTok (line : String) : Option String :=
  ((splitWs line).filter isNumericTok).getLast?

/-- Modelled from the spec: "output that prints a line containing the job id
as its last numeric token" — some line of the output has a last numeric
token. -/
def outputTrailingNumericTok (out : String) : Option String :=
  ((splitLines out).filterMap lineLastNumericTok).getLast?

/-! ### ResourceSpec memory validation (`core/models.py`) -/

/-- `ResourceSpec.validate_memory`: uppercase the value and accept exactly
when it ends with one of the listed suffixes; a `ValueError` inside a
pydantic validator rejects the value at construction, modelled as `Except`. -/
def validate_memory (v : String) : Except String String :=
  let u := upperStr v
  if ["G", "M", "K", "GB", "MB", "KB"].any (fun suffix => endsWithStr u suffix) then
    .ok u
  else
    .error "Memory must end with G, M, K (e.g., 16G, 32GB)"

/-- Modelled from the spec: a memory string "consisting of a numeric value
followed by a unit suffix in {K, M, G, KB, MB, GB} (in either case)". -/
def isNumericPlusSuffix (v : String) : Bool :=
  ["K", "M", "G", "KB", "MB", "GB"].any (fun suffix =>
    endsWithStr (upperStr v) suffix &&
    decide (suffix.length < v.length) &&
    (v.data.take (v.data.length - suffix.length)).all Char.isDigit)

/-! ### Byte-level model of the persistence write (`_persist_state`)

The registry structures above record only the snapshot the file ends up
holding; this model captures how the bytes reach the disk, to reason about
what a crash in the middle of one persistence write leaves behind. -/
namespace Persist

/-- Content of the persistence path and of a would-be temporary sibling;
`none` means the file does not exist. -/
structure FileState where
  main : Option String
  temp : Option String
deriving DecidableEq, Repr

/-- Primitive file-system steps a write strategy is composed of. -/
inductive FileOp where
  /-- `open(path, "w")`: truncates the target file to empty. -/
  | openTruncate
  /-- write to the opened target file (appends to its current content). -/
  | writeMain (s : String)
  /-- write a complete temporary sibling file. -/
  | writeTemp (s : String)
  /-- atomically rename the temporary sibling over the target. -/
  | renameOverMain
deriving DecidableEq, Repr

/-- Effect of one step on the file system. -/
def applyFileOp (fs : FileState) (op : FileOp) : FileState :=
  match op with
  | .openTruncate => { fs with main := some "" }
  | .writeMain s => { fs with main := some (fs.main.getD "" ++ s) }
  | .writeTemp s => { fs with temp := some s }
  | .renameOverMain => { main := fs.temp, temp := none }

def runFileOps (fs : FileState) (ops : List FileOp) : FileState :=
  ops.foldl applyFileOp fs

/-- The write strategy `ServiceRegistry._persist_state` and
`RunRegistry._persist_state` actually use: open the persistence path itself
with mode `"w"` (truncating it) and `json.dump` the snapshot into it.  No
temporary file and no rename appear in the source. -/
def persist_state_ops (snapshot : String) : List FileOp :=
  [.openTruncate, .writeMain snapshot]

/-- Modelled from the spec: the write-to-temp-then-rename strategy the spec
names as required. -/
def tempThenRenameOps (snapshot : String) : List FileOp :=
  [.writeTemp snapshot, .renameOverMain]

/-- File states observable if the process crashes after any prefix of the
strategy (including before the first and after the last step). -/
def crashStates (fs : FileState) (ops : List FileOp) : List FileState :=
  (List.range (ops.length + 1)).map (fun n => runFileOps fs (ops.take n))

end Persist

/-! ### Server manager (`servers/manager.py`) -/

/-- `ServiceStopError` from `core/exceptions.py`. -/
structure ServiceStopError where
  service_id : String
  reason : String
deriving DecidableEq, Repr

/-- The two exceptions `ServerManager.stop_service` can raise. -/
inductive StopErr where
  | notFound (e : ServiceNotFoundError)
  | stopFailed (e : ServiceStopError)
deriving DecidableEq, Repr

/-- The shared lookup of `ServerManager.stop_service` and
`ServerManager.get_service_status`: try `registry.get` by instance id, fall
back to `registry.get_by_job_id` on `ServiceNotFoundError`. -/
def resolve_service (r : ServiceRegistry) (service_id : String) :
    Option ServiceInstance :=
  match r.get service_id with
  | .ok service => some service
  | .error _ => r.get_by_job_id service_id

/-- `ServerManager.stop_service`.  `cancel_ok` models the boolean result of
`orchestrator.cancel_job`; `now` models the clock.  A failed cancellation
without `force` raises `ServiceStopError` (the inner raise is re-wrapped by
the `except` block); with `force` the service is marked STOPPED anyway. -/
def stop_service (r : ServiceRegistry) (service_id : String) (force : Bool)
    (cancel_ok : Bool) (now : Int) : Except StopErr (Bool × ServiceRegistry) :=
  match resolve_service r service_id with
  | none => .error (.notFound ⟨service_id⟩)
  | some service =>
    if serviceTerminal service.status then
      .ok (true, r)
    else
      let r1 := (r.update_status service.id .stopping none now).2
      if service.slurm_job_id.isSome && ¬ cancel_ok && ¬ force then
        .error (.stopFailed ⟨service.id, "Failed to cancel SLURM job"⟩)
      else
        .ok (true, (r1.update_status service.id .stopped none now).2)

/-- `ServerManager.get_service_status`.  `slurm_status` models
`orchestrator.get_job_status` for the instance's job and `slurm_node` models
`orchestrator.get_job_node`; both are consulted only on the paths where the
source calls them. -/
def get_service_status (r : ServiceRegistry) (service_id : String)
    (slurm_status : ServiceStatus) (slurm_node : Option String) (now : Int) :
    Except ServiceNotFoundError (ServiceInstance × ServiceRegistry) :=
  match resolve_service r service_id with
  | none => .error ⟨service_id⟩
  | some service =>
    if service.slurm_job_id.isSome && ¬ serviceTerminal service.status then
      if ¬ (slurm_status = service.status) then
        let r1 := (r.update_status service.id slurm_status none now).2
        let service := { service with status := slurm_status }
        if slurm_status = ServiceStatus.running then
          match slurm_node with
          | some n =>
            if ¬ n = "" && ¬ (service.node = some n) then
              .ok ({ service with node := some n }, (r1.update_node service.id n).2)
            else
              .ok (service, r1)
          | none => .ok (service, r1)
        else
          .ok (service, r1)
      else
        .ok (service, r)
    else
      .ok (service, r)

/-! ### Client manager target resolution (`clients/manager.py`) -/

/-- The `target` dict of a `ClientRecipe`, restricted to the two keys
`_resolve_target_endpoint` consults. -/
structure ClientTargetConfig where
  url : Option String := none
  endpoint_file : Option String := none
deriving DecidableEq, Repr

/-- Steps (3)-(5) of `ClientManager._resolve_target_endpoint`: the recipe's
declared target URL, else the declared endpoint file — read it and return
the value after `ENDPOINT=` on the first line starting with it, stripped —
else no target.  `read_file` models the file system (`none` = absent or
unreadable). -/
def resolve_from_recipe (read_file : String → Option String)
    (target : ClientTargetConfig) : Option String :=
  match target.url with
  | some u => some u
  | none =>
    match target.endpoint_file with
    | some path =>
      match read_file path with
      | some content =>
        match (splitLines content).find? (fun line => startsWithStr line "ENDPOINT=") with
        | some line => some (stripStr ⟨line.data.drop "ENDPOINT=".length⟩)
        | none => none
      | none => none
    | none => none

/-- `ClientManager._resolve_target_endpoint`: precedence (1) a truthy
explicit target starting with `http://`/`https://` is returned outright,
(2) a truthy explicit service id is looked up in the registry and its
`"api"` endpoint returned when truthy, (3)-(5) fall back to the recipe
configuration. -/
def resolve_target_endpoint (registry : ServiceRegistry)
    (read_file : String → Option String) (target : ClientTargetConfig)
    (target_service_id : Option String) : Option String :=
  match target_service_id with
  | none => resolve_from_recipe read_file target
  | some tid =>
    if ¬ tid = "" && (startsWithStr tid "http://" || startsWithStr tid "https://") then
      some tid
    else if ¬ tid = "" then
      match registry.get tid with
      | .ok service =>
        match service.get_endpoint "api" with
        | some e => if ¬ e = "" then some e else resolve_from_recipe read_file target
        | none => resolve_from_recipe read_file target
      | .error _ => resolve_from_recipe read_file target
    else
      resolve_from_recipe read_file target

/-! ### Helper lemmas about the association-list dictionary model -/

theorem find?_map_replace {α : Type} (l : List (String × α)) (k : String) (v : α)
    (h : (l.find? (fun p => p.1 = k)).isSome = true) :
    (l.map (fun p => if p.1 = k then (k, v) else p)).find? (fun p => p.1 = k)
      = some (k, v) := by
  induction l with
  | nil => simp at h
  | cons p t ih =>
    by_cases hp : p.1 = k
    · simp [List.find?_cons, hp]
    · simp only [List.find?_cons, hp, decide_eq_true_eq, if_neg] at h ⊢
      simp only [List.map_cons, List.find?_cons, if_neg hp, hp, decide_eq_true_eq]
      simpa [hp] using ih (by simpa [hp] using h)

theorem find?_append_new {α : Type} (l : List (String × α)) (k : String) (v : α)
    (h : l.find? (fun p => p.1 = k) = none) :
    (l ++ [(k, v)]).find? (fun p => p.1 = k) = some (k, v) := by
  induction l with
  | nil => simp
  | cons p t ih =>
    by_cases hp : p.1 = k
    · simp [List.find?_cons, hp] at h
    · simp only [List.find?_cons, hp, decide_eq_true_eq, if_neg] at h ⊢
      simp only [List.cons_append, List.find?_cons, hp, decide_eq_true_eq, if_neg]
      simpa [hp] using ih (by simpa [hp] using h)

theorem alookup_aset_self {α : Type} (l : List (String × α)) (k : String) (v : α) :
    alookup (aset l k v) k = some v := by
  unfold aset alookup
  by_cases h : ((l.find? (fun p => p.1 = k)).isSome = true)
  · rw [if_pos h, find?_map_replace l k v h]; rfl
  · have hn : l.find? (fun p => p.1 = k) = none := by
      cases hf : l.find? (fun p => p.1 = k) with
      | none => rfl
      | some q => rw [hf] at h; simp at h
    rw [if_neg h, find?_append_new l k v hn]; rfl

theorem foldl_adel_eq_filter {α : Type} (ids : List String) (l : List (String × α)) :
    ids.foldl adel l = l.filter (fun p => decide (¬ p.1 ∈ ids)) := by
  induction ids generalizing l with
  | nil => simp
  | cons i t ih =>
    simp only [List.foldl_cons]
    rw [ih (adel l i)]
    unfold adel
    rw [List.filter_filter]
    apply List.filter_congr
    intro p _
    by_cases h1 : p.1 = i <;> by_cases h2 : p.1 ∈ t <;> simp [h1, h2]

/-! ### Theorems settling the claims -/

/-- C7: `cleanup_stale(maxAge)` removes exactly the registered instances in a
terminal status whose terminal timestamp is strictly older than `maxAge`
hours and returns the number removed; an instance exactly at the boundary or
younger is retained, and no non-terminal instance is ever removed.  Nodup of
the keys is the dictionary invariant of the Python `dict` the list models. -/
theorem C7_cleanup_stale_exact (r : ServiceRegistry) (now m : Int)
    (hnodup : (r.services.map Prod.fst).Nodup) :
    (∀ s : ServiceInstance,
        staleService now m s = true ↔
          (serviceTerminal s.status = true ∧
            ∃ t, s.stopped_at = some t ∧ now - t > m * 3600)) ∧
    (r.cleanup_stale now m).2.services
        = r.services.filter (fun p => ¬ staleService now m p.2) ∧
    (r.cleanup_stale now m).1
        = (r.services.filter (fun p => staleService now m p.2)).length := by
  refine ⟨?_, ?_, ?_⟩
  · intro s
    unfold staleService
    cases hs : s.stopped_at with
    | none => simp
    | some t => simp
  · have hrem : (((r.services.filter (fun p => staleService now m p.2)).map
          (fun p => p.1)).foldl adel r.services)
        = r.services.filter (fun p => ¬ staleService now m p.2) := by
      rw [foldl_adel_eq_filter]
      apply List.filter_congr
      intro p hp
      have hiff : (p.1 ∈ (r.services.filter
            (fun p => staleService now m p.2)).map (fun p => p.1))
          ↔ staleService now m p.2 = true := by
        constructor
        · intro hmem
          obtain ⟨q, hq, hq1⟩ := List.mem_map.mp hmem
          have hqmem := (List.mem_filter.mp hq).1
          have hqstale := (List.mem_filter.mp hq).2
          have : q = p := List.inj_on_of_nodup_map hnodup hqmem hp hq1
          rw [this] at hqstale
          exact hqstale
        · intro hstale
          exact List.mem_map.mpr ⟨p, List.mem_filter.mpr ⟨hp, hstale⟩, rfl⟩
      rw [decide_eq_decide]
      exact not_congr hiff
    simp only [ServiceRegistry.cleanup_stale]
    by_cases hc : ((r.services.filter (fun p => staleService now m p.2)).map
        (fun p => p.1)).isEmpty = true
    · rw [if_pos hc]
      exact hrem
    · rw [if_neg hc]
      simpa [ServiceRegistry.persist_state] using hrem
  · simp only [ServiceRegistry.cleanup_stale]
    by_cases hc : ((r.services.filter (fun p => staleService now m p.2)).map
        (fun p => p.1)).isEmpty = true
    · rw [if_pos hc]
      simp
    · rw [if_neg hc]
      simp

/-- Concrete three-instance registry for exercising `cleanup_stale`:
A stopped 48h before time 172800s, B stopped 1h before, C still running. -/
def cleanupDemoRegistry : ServiceRegistry :=
  { services :=
      [("A", { id := "A", recipe_name := "r", status := .stopped, stopped_at := some 0 }),
       ("B", { id := "B", recipe_name := "r", status := .stopped, stopped_at := some 169200 }),
       ("C", { id := "C", recipe_name := "r", status := .running })] }

/-- C7 witness: threshold 24h at time 172800s; instance A (48h old) is
removed, instance B (1h old) and the running instance C are retained, and
the count is 1. -/
theorem C7_cleanup_stale_exact_witness :
    (cleanupDemoRegistry.cleanup_stale 172800 24).1 = 1 ∧
    ((cleanupDemoRegistry.cleanup_stale 172800 24).2.services.map Prod.fst)
      = ["B", "C"] := by
  have h := C7_cleanup_stale_exact cleanupDemoRegistry 172800 24 (by decide)
  refine ⟨by rw [h.2.2]; decide, by rw [h.2.1]; decide⟩

/-- Characterization of the instance stored by `ServiceRegistry.update_status`
when the id is present: status is set unconditionally, a truthy error message
is recorded, `started_at` is stamped only on a first transition into RUNNING,
`stopped_at` on any update into STOPPED or ERROR. -/
theorem alookup_update_status (r : ServiceRegistry) (id : String)
    (s : ServiceInstance) (st : ServiceStatus) (e : Option String) (now : Int)
    (h : alookup r.services id = some s) :
    alookup ((r.update_status id st e now).2.services) id = some
      { s with
        status := st,
        error_message :=
          match e with
          | some m => if m = "" then s.error_message else some m
          | none => s.error_message,
        started_at :=
          if st = ServiceStatus.running ∧ s.started_at = none then some now
          else s.started_at,
        stopped_at :=
          if st = ServiceStatus.stopped ∨ st = ServiceStatus.error then some now
          else s.stopped_at } := by
  simp only [ServiceRegistry.update_status, h, ServiceRegistry.persist_state]
  rw [alookup_aset_self]
  cases e with
  | none => split_ifs <;> simp_all [apply_ite]
  | some m => split_ifs <;> simp_all [apply_ite]

/-- Characterization of the run stored by `RunRegistry.update_status` when
the id is present. -/
theorem alookup_run_update_status (r : RunRegistry) (id : String)
    (run : ClientRun) (st : RunStatus) (e : Option String) (now : Int)
    (h : alookup r.runs id = some run) :
    alookup ((r.update_status id st e now).2.runs) id = some
      { run with
        status := st,
        error_message :=
          match e with
          | some m => if m = "" then run.error_message else some m
          | none => run.error_message,
        started_at :=
          if st = RunStatus.running ∧ run.started_at = none then some now
          else run.started_at,
        completed_at :=
          if runTerminal st = true then some now else run.completed_at } := by
  simp only [RunRegistry.update_status, h, RunRegistry.persist_state]
  rw [alookup_aset_self]
  cases e with
  | none => split_ifs <;> simp_all [runTerminal, apply_ite]
  | some m => split_ifs <;> simp_all [runTerminal, apply_ite]

/-- C9: for an id not present in the registry, the mutating operations
`update_status`, `update_node`, `update_endpoints` and `unregister` return
`false` instead of raising and leave the whole registry state — the
in-memory map, the persisted file and the write count — unchanged; only
`get` raises `ServiceNotFoundError`. -/
theorem C9_missing_id_noop (r : ServiceRegistry) (id : String)
    (st : ServiceStatus) (e : Option String) (now : Int) (node : String)
    (eps : List (String × String)) (h : alookup r.services id = none) :
    r.update_status id st e now = (false, r) ∧
    r.update_node id node = (false, r) ∧
    r.update_endpoints id eps = (false, r) ∧
    r.unregister id = (false, r) ∧
    r.get id = .error ⟨id⟩ := by
  refine ⟨?_, ?_, ?_, ?_, ?_⟩ <;>
    simp [ServiceRegistry.update_status, ServiceRegistry.update_node,
      ServiceRegistry.update_endpoints, ServiceRegistry.unregister,
      ServiceRegistry.get, h]

/-- C9 witness: the operations on `"zz"` in an empty registry. -/
theorem C9_missing_id_noop_witness :
    ({ services := [] } : ServiceRegistry).update_status "zz" .running none 0
        = (false, { services := [] }) ∧
    ({ services := [] } : ServiceRegistry).update_node "zz" "n1"
        = (false, { services := [] }) ∧
    ({ services := [] } : ServiceRegistry).update_endpoints "zz" []
        = (false, { services := [] }) ∧
    ({ services := [] } : ServiceRegistry).unregister "zz"
        = (false, { services := [] }) ∧
    ({ services := [] } : ServiceRegistry).get "zz" = .error ⟨"zz"⟩ :=
  C9_missing_id_noop { services := [] } "zz" .running none 0 "n1" [] (by decide)

/-- C1 counterexample: a registry holding one service in the terminal status
STOPPED; calling `ServiceRegistry.update_status` with target RUNNING moves
it back to the non-terminal status RUNNING, so the observed status sequence
is not non-decreasing. -/
theorem C1_counterexample :
    serviceTerminal ServiceStatus.stopped = true ∧
    serviceTerminal ServiceStatus.running = false ∧
    ((({ services := [("s1", { id := "s1", recipe_name := "r", status := .stopped, stopped_at := some 100 })] } : ServiceRegistry).update_status "s1" .running none 200).2.services.map
        (fun p => p.2.status)) = [ServiceStatus.running] := by
  decide

/-- C1 (amended): `ServiceRegistry.update_status` applies any target status
unconditionally — the updated instance always carries exactly the requested
status, even when the previous status was terminal — so a direct
`update_status` call can resurrect a terminal instance; the manager
operations, by contrast, never do: `stop_service` returns success without
touching the registry when the instance is already terminal, and
`get_service_status` skips reconciliation (returning instance and registry
unchanged) for a terminal instance. -/
theorem C1_amended_no_terminal_guard :
    (∀ (r : ServiceRegistry) (id : String) (s : ServiceInstance)
        (st : ServiceStatus) (e : Option String) (now : Int),
        alookup r.services id = some s →
        (alookup ((r.update_status id st e now).2.services) id).map
            ServiceInstance.status = some st) ∧
    (∀ (r : ServiceRegistry) (sid : String) (s : ServiceInstance)
        (force cancel_ok : Bool) (now : Int) (st : ServiceStatus)
        (nd : Option String),
        resolve_service r sid = some s → serviceTerminal s.status = true →
        stop_service r sid force cancel_ok now = Except.ok (true, r) ∧
        get_service_status r sid st nd now = Except.ok (s, r)) := by
  constructor
  · intro r id s st e now h
    rw [alookup_update_status r id s st e now h]
    rfl
  · intro r sid s force cancel_ok now st nd hres hterm
    constructor
    · simp only [stop_service, hres]
      rw [if_pos hterm]
    · simp only [get_service_status, hres, hterm]
      simp

/-- C1 amended witness: the stopped service `"s1"`. -/
theorem C1_amended_no_terminal_guard_witness :
    (alookup ((({ services := [("s1", { id := "s1", recipe_name := "r", status := .stopped, stopped_at := some 100 })] } : ServiceRegistry).update_status "s1" .running none 5).2.services) "s1").map
        ServiceInstance.status = some .running ∧
    stop_service { services := [("s1", { id := "s1", recipe_name := "r", status := .stopped, stopped_at := some 100 })] } "s1" false true 5
      = Except.ok (true, { services := [("s1", { id := "s1", recipe_name := "r", status := .stopped, stopped_at := some 100 })] }) := by
  refine ⟨C1_amended_no_terminal_guard.1 _ "s1"
      { id := "s1", recipe_name := "r", status := .stopped, stopped_at := some 100 }
      .running none 5 (by decide), ?_⟩
  exact (C1_amended_no_terminal_guard.2 _ "s1"
      { id := "s1", recipe_name := "r", status := .stopped, stopped_at := some 100 }
      false true 5 .running none (by decide) (by decide)).1

/-- C2 counterexample: a service already STOPPED with `stopped_at = 100`;
re-applying STOPPED at time 200 re-stamps `stopped_at` to 200 instead of
keeping the previously stamped value. -/
theorem C2_counterexample :
    ((({ services := [("s1", { id := "s1", recipe_name := "r", status := .stopped, stopped_at := some 100 })] } : ServiceRegistry).update_status "s1" .stopped none 200).2.services.map
        (fun p => p.2.stopped_at)) = [some 200] ∧
    ¬ (some (200 : Int) = some (100 : Int)) := by
  decide

/-- C2 (amended): `started_at` is stamped exactly on the first transition
into RUNNING and kept on re-application, but the terminal timestamp is
re-stamped with the current time on every update into a terminal status —
including idempotent re-application of the same terminal status.  The same
holds for `RunRegistry.update_status` with `completed_at`. -/
theorem C2_amended_timestamp_stamping :
    (∀ (r : ServiceRegistry) (id : String) (s : ServiceInstance)
        (e : Option String) (now : Int),
        alookup r.services id = some s →
        ((alookup ((r.update_status id .running e now).2.services) id).map
            (fun q => q.started_at)
          = some (if s.started_at = none then some now else s.started_at)) ∧
        (∀ st, serviceTerminal st = true →
          (alookup ((r.update_status id st e now).2.services) id).map
              (fun q => q.stopped_at) = some (some now) ∧
          (alookup ((r.update_status id st e now).2.services) id).map
              (fun q => q.started_at) = some s.started_at)) ∧
    (∀ (rr : RunRegistry) (id : String) (run : ClientRun)
        (e : Option String) (now : Int),
        alookup rr.runs id = some run →
        ((alookup ((rr.update_status id .running e now).2.runs) id).map
            (fun q => q.started_at)
          = some (if run.started_at = none then some now else run.started_at)) ∧
        (∀ st, runTerminal st = true →
          (alookup ((rr.update_status id st e now).2.runs) id).map
              (fun q => q.completed_at) = some (some now))) := by
  constructor
  · intro r id s e now h
    constructor
    · rw [alookup_update_status r id s .running e now h]
      by_cases hs : s.started_at = none <;> simp [hs]
    · intro st hst
      have hst2 : st = ServiceStatus.stopped ∨ st = ServiceStatus.error := by
        simpa [serviceTerminal] using hst
      have hnr : ¬ (st = ServiceStatus.running ∧ s.started_at = none) := by
        rcases hst2 with h2 | h2 <;> simp [h2]
      rw [alookup_update_status r id s st e now h]
      constructor <;> simp [if_pos hst2, if_neg hnr]
  · intro rr id run e now h
    constructor
    · rw [alookup_run_update_status rr id run .running e now h]
      by_cases hs : run.started_at = none <;> simp [hs]
    · intro st hst
      rw [alookup_run_update_status rr id run st e now h]
      simp [if_pos hst]

/-- C2 amended witness: the stopped service and a completed run. -/
theorem C2_amended_timestamp_stamping_witness :
    ((alookup ((({ services := [("s1", { id := "s1", recipe_name := "r", status := .stopped, started_at := some 7, stopped_at := some 100 })] } : ServiceRegistry).update_status "s1" .stopped none 200).2.services) "s1").map
        (fun q => q.stopped_at) = some (some 200)) ∧
    ((alookup ((({ runs := [("c1", { id := "c1", recipe_name := "r", status := .completed, completed_at := some 100 })] } : RunRegistry).update_status "c1" .completed none 200).2.runs) "c1").map
        (fun q => q.completed_at) = some (some 200)) := by
  constructor
  · exact ((C2_amended_timestamp_stamping.1 _ "s1"
      { id := "s1", recipe_name := "r", status := .stopped, started_at := some 7, stopped_at := some 100 }
      none 200 (by decide)).2 .stopped (by decide)).1
  · exact (C2_amended_timestamp_stamping.2 _ "c1"
      { id := "c1", recipe_name := "r", status := .completed, completed_at := some 100 }
      none 200 (by decide)).2 .completed (by decide)

/-- C10: `stop_service` and `get_service_status` accept either a registry
instance id or an external SLURM job id: a direct id hit resolves to that
instance; when the id misses, a linear `get_by_job_id` lookup supplies the
instance operated on; `ServiceNotFoundError` is raised exactly when both
lookups miss, and every successful `get_service_status` returns the resolved
instance (its id is preserved through reconciliation). -/
theorem C10_lookup_fallback :
    (∀ (r : ServiceRegistry) (sid : String) (s : ServiceInstance),
        alookup r.services sid = some s → resolve_service r sid = some s) ∧
    (∀ (r : ServiceRegistry) (sid : String) (s : ServiceInstance),
        alookup r.services sid = none → r.get_by_job_id sid = some s →
        resolve_service r sid = some s) ∧
    (∀ (r : ServiceRegistry) (sid : String) (force cancel_ok : Bool) (now : Int)
        (st : ServiceStatus) (nd : Option String),
        alookup r.services sid = none → r.get_by_job_id sid = none →
        stop_service r sid force cancel_ok now = .error (.notFound ⟨sid⟩) ∧
        get_service_status r sid st nd now = .error ⟨sid⟩) ∧
    (∀ (r : ServiceRegistry) (sid : String) (s : ServiceInstance)
        (force cancel_ok : Bool) (now : Int) (st : ServiceStatus)
        (nd : Option String),
        resolve_service r sid = some s →
        (∀ e : ServiceNotFoundError,
            ¬ stop_service r sid force cancel_ok now = .error (.notFound e)) ∧
        (∀ e : ServiceNotFoundError,
            ¬ get_service_status r sid st nd now = .error e) ∧
        (∀ res, get_service_status r sid st nd now = .ok res →
            res.1.id = s.id)) := by
  refine ⟨?_, ?_, ?_, ?_⟩
  · intro r sid s h
    simp [resolve_service, ServiceRegistry.get, h]
  · intro r sid s h hj
    simp [resolve_service, ServiceRegistry.get, h, hj]
  · intro r sid force cancel_ok now st nd h hj
    have hres : resolve_service r sid = none := by
      simp [resolve_service, ServiceRegistry.get, h, hj]
    exact ⟨by simp [stop_service, hres], by simp [get_service_status, hres]⟩
  · intro r sid s force cancel_ok now st nd hres
    have hstop : (∃ res, stop_service r sid force cancel_ok now = Except.ok res) ∨
        stop_service r sid force cancel_ok now
          = Except.error (.stopFailed ⟨s.id, "Failed to cancel SLURM job"⟩) := by
      simp only [stop_service, hres]
      split_ifs <;> first | (left; exact ⟨_, rfl⟩) | (right; rfl)
    have hgss : ∃ res, get_service_status r sid st nd now = Except.ok res ∧
        res.1.id = s.id := by
      simp only [get_service_status, hres]
      cases nd <;> dsimp only <;> split_ifs <;> exact ⟨_, rfl, rfl⟩
    refine ⟨?_, ?_, ?_⟩
    · intro e heq
      rcases hstop with ⟨res, hok⟩ | herr
      · rw [hok] at heq; simp at heq
      · rw [herr] at heq; simp at heq
    · intro e heq
      rcases hgss with ⟨res, hok, _⟩
      rw [hok] at heq; simp at heq
    · intro res heq
      rcases hgss with ⟨res2, hok, hid⟩
      rw [hok] at heq
      injection heq with h2
      rw [← h2]
      exact hid

/-- C10 witness: lookup of the external job id `"777"` falls back to the
registered instance `"s2"`, and an id unknown to both lookups raises. -/
theorem C10_lookup_fallback_witness :
    resolve_service { services := [("s2", { id := "s2", recipe_name := "r", status := .running, slurm_job_id := some "777" })] } "777"
      = some { id := "s2", recipe_name := "r", status := .running, slurm_job_id := some "777" } ∧
    stop_service { services := [] } "nope" false true 0
      = .error (.notFound ⟨"nope"⟩) ∧
    get_service_status { services := [] } "nope" .running none 0
      = .error ⟨"nope"⟩ := by
  refine ⟨C10_lookup_fallback.2.1 _ "777"
      { id := "s2", recipe_name := "r", status := .running, slurm_job_id := some "777" }
      (by decide) (by decide), ?_, ?_⟩
  · exact (C10_lookup_fallback.2.2.1 { services := [] } "nope" false true 0
      .running none (by decide) (by decide)).1
  · exact (C10_lookup_fallback.2.2.1 { services := [] } "nope" false true 0
      .running none (by decide) (by decide)).2

/-- All scheduler state tokens recognized by the mapping table inside
`get_job_status`. -/
def slurmKnownTokens : List String :=
  ["RUNNING", "R", "PENDING", "PD", "CONFIGURING", "CF", "COMPLETING", "CG",
   "COMPLETED", "CD", "FAILED", "F", "TIMEOUT", "TO", "CANCELLED", "CA",
   "NODE_FAIL", "NF"]

/-- C4: `get_job_status` is total over scheduler outputs — every state token
maps into {PENDING, RUNNING, STOPPING, STOPPED, ERROR, UNKNOWN} (never the
seventh status STARTING, and no exception is possible since the function is
total); a job absent from both the active-queue view and the historical
accounting view yields UNKNOWN, and an unrecognized token yields UNKNOWN. -/
theorem C4_job_status_total :
    (∀ (active accounting : Option SlurmJobInfo),
        get_job_status active accounting ∈
          [ServiceStatus.pending, ServiceStatus.running, ServiceStatus.stopping,
           ServiceStatus.stopped, ServiceStatus.error, ServiceStatus.unknown]) ∧
    get_job_status none none = ServiceStatus.unknown ∧
    (∀ (info : SlurmJobInfo) (accounting : Option SlurmJobInfo),
        ¬ upperStr info.state ∈ slurmKnownTokens →
        get_job_status (some info) accounting = ServiceStatus.unknown) := by
  refine ⟨?_, rfl, ?_⟩
  · intro active accounting
    unfold get_job_status
    cases get_job_info active accounting with
    | none => simp
    | some info =>
      unfold mapSlurmState
      dsimp only
      split_ifs <;> simp
  · intro info accounting h
    simp only [slurmKnownTokens, List.mem_cons, List.not_mem_nil, or_false] at h
    push_neg at h
    unfold get_job_status get_job_info mapSlurmState
    dsimp only
    split_ifs <;> simp_all

/-- C4 witness: a job in the active queue with the unrecognized state token
`"weird"` maps to UNKNOWN. -/
theorem C4_job_status_total_witness :
    get_job_status (some { job_id := "1", name := "j", state := "weird", node := none, partition := "p", time_used := "0:00" }) none
      = ServiceStatus.unknown :=
  C4_job_status_total.2.2
    { job_id := "1", name := "j", state := "weird", node := none, partition := "p", time_used := "0:00" }
    none (by decide)

/-- C6 counterexample: `"XG"` is not of the numeric-plus-suffix form, yet
`validate_memory` accepts it — the numeric prefix is never checked, so the
claim that every non-numeric-plus-suffix string is rejected fails. -/
theorem C6_counterexample :
    isNumericPlusSuffix "XG" = false ∧ validate_memory "XG" = .ok "XG" :=
  ⟨by decide, rfl⟩

/-- C6 (amended): `validate_memory` accepts exactly the strings whose
uppercased form ends with one of the six unit suffixes — in particular every
numeric-plus-suffix string — and normalizes the accepted value to uppercase;
`"16G"`, `"32GB"`, `"1024M"`, `"512MB"`, `"1024K"` are accepted and `"16"`
and `"16X"` rejected; the numeric prefix itself is not validated. -/
theorem C6_amended_memory_validation :
    (∀ v : String, (∃ u, validate_memory v = .ok u) ↔
        (["G", "M", "K", "GB", "MB", "KB"].any
          (fun suffix => endsWithStr (upperStr v) suffix)) = true) ∧
    (∀ v : String, isNumericPlusSuffix v = true →
        validate_memory v = .ok (upperStr v)) ∧
    validate_memory "16G" = .ok "16G" ∧
    validate_memory "32GB" = .ok "32GB" ∧
    validate_memory "1024M" = .ok "1024M" ∧
    validate_memory "512MB" = .ok "512MB" ∧
    validate_memory "1024K" = .ok "1024K" ∧
    validate_memory "16g" = .ok "16G" ∧
    (validate_memory "16").isOk = false ∧
    (validate_memory "16X").isOk = false := by
  refine ⟨?_, ?_, rfl, rfl, rfl, rfl, rfl, rfl, rfl, rfl⟩
  · intro v
    simp only [validate_memory]
    by_cases h : (["G", "M", "K", "GB", "MB", "KB"].any
        (fun suffix => endsWithStr (upperStr v) suffix)) = true
    · simp [h]
    · simp [h]
  · intro v hv
    have h : (["G", "M", "K", "GB", "MB", "KB"].any
        (fun suffix => endsWithStr (upperStr v) suffix)) = true := by
      simp only [isNumericPlusSuffix, List.any_eq_true] at hv
      rcases hv with ⟨suf, hsuf, hcond⟩
      have hend : endsWithStr (upperStr v) suf = true := by
        simp only [Bool.and_eq_true] at hcond
        exact hcond.1.1
      simp only [List.any_eq_true]
      fin_cases hsuf <;> exact ⟨_, by decide, hend⟩
    simp only [validate_memory]
    simp [h]

/-- C6 amended witness: the numeric-plus-suffix string `"42g"`. -/
theorem C6_amended_memory_validation_witness :
    validate_memory "42g" = .ok "42G" := by
  have h := C6_amended_memory_validation.2.1 "42g" (by decide)
  simpa using h

/-- C3 counterexample: with prior persisted snapshot `"A"` and new snapshot
`"B"`, the strategy `_persist_state` actually uses (truncate the target in
place, then write) is not write-to-temp-then-rename, and it passes through a
crash state in which the file holds `""` — neither the complete prior
snapshot nor the new one. -/
theorem C3_counterexample :
    ¬ Persist.persist_state_ops "B" = Persist.tempThenRenameOps "B" ∧
    (⟨some "", none⟩ : Persist.FileState) ∈
      Persist.crashStates ⟨some "A", none⟩ (Persist.persist_state_ops "B") ∧
    ¬ ((some "" : Option String) = some "A") ∧
    ¬ ((some "" : Option String) = some "B") := by
  decide

/-- C3 (amended): every registry mutation rewrites the persistence file
wholesale — running the `_persist_state` write to completion leaves exactly
the new snapshot, never appended content — but by truncating the target in
place rather than by write-to-temp-then-rename; the crash state between
truncation and write completion holds an empty file, so a crash mid-write
does not preserve the prior snapshot (whereas the temp-then-rename strategy
the spec prescribes would show only the prior or the new snapshot at every
crash point). -/
theorem C3_amended_truncate_in_place (prior : Option String) (snap : String) :
    Persist.runFileOps ⟨prior, none⟩ (Persist.persist_state_ops snap)
        = ⟨some snap, none⟩ ∧
    Persist.crashStates ⟨prior, none⟩ (Persist.persist_state_ops snap)
        = [⟨prior, none⟩, ⟨some "", none⟩, ⟨some snap, none⟩] ∧
    Persist.crashStates ⟨prior, none⟩ (Persist.tempThenRenameOps snap)
        = [⟨prior, none⟩, ⟨prior, some snap⟩, ⟨some snap, none⟩] := by
  obtain ⟨cs⟩ := snap
  exact ⟨rfl, rfl, rfl⟩

/-- Prepending a character preserves an acknowledgement-pattern match
further right. -/
theorem ackMatch_cons (a : Char) (tail : List Char)
    (h : ∃ (pre rest : List Char) (c : Char),
        tail = pre ++ sbatchAck.data ++ c :: rest ∧ c.isDigit = true) :
    ∃ (pre rest : List Char) (c : Char),
        a :: tail = pre ++ sbatchAck.data ++ c :: rest ∧ c.isDigit = true := by
  obtain ⟨pre, rest, c, hcs, hc⟩ := h
  exact ⟨a :: pre, rest, c, by rw [hcs]; rfl, hc⟩

/-- `scanJobId` succeeds exactly on character lists containing the literal
acknowledgement text followed by at least one digit — the language of the
regex `Submitted batch job (\d+)`. -/
theorem scanJobId_isSome_iff (cs : List Char) :
    (scanJobId cs).isSome = true ↔
      ∃ (pre rest : List Char) (c : Char),
        cs = pre ++ sbatchAck.data ++ c :: rest ∧ c.isDigit = true := by
  induction cs with
  | nil =>
    constructor
    · intro h
      simp [scanJobId] at h
    · rintro ⟨pre, rest, c, hcs, -⟩
      have hlen := congrArg List.length hcs
      have hack : sbatchAck.data.length = 20 := by decide
      simp only [List.length_nil, List.length_append, List.length_cons,
        hack] at hlen
      omega
  | cons a tail ih =>
    by_cases hpre : sbatchAck.data.isPrefixOf (a :: tail) = true
    · obtain ⟨suf, hsuf⟩ := List.isPrefixOf_iff_prefix.mp hpre
      have hdrop : (a :: tail).drop sbatchAck.length = suf := by
        rw [← hsuf, show sbatchAck.length = sbatchAck.data.length from rfl,
          List.drop_left]
      rw [scanJobId]
      simp only [hpre, if_pos, hdrop]
      cases suf with
      | nil =>
        simp only [List.takeWhile_nil, List.isEmpty_nil, if_pos]
        rw [ih]
        constructor
        · exact ackMatch_cons a tail
        · rintro ⟨pre, rest, c, hcs, hc⟩
          cases pre with
          | nil =>
            simp only [List.nil_append] at hcs
            rw [← hsuf] at hcs
            have := List.append_cancel_left hcs
            cases this
          | cons p ps =>
            rcases List.cons_eq_cons.mp hcs with ⟨-, htail⟩
            exact ⟨ps, rest, c, htail, hc⟩
      | cons c0 s0 =>
        by_cases hd : c0.isDigit = true
        · rw [List.takeWhile_cons_of_pos hd]
          refine iff_of_true (by simp)
            ⟨[], s0, c0, by rw [List.nil_append, ← hsuf], hd⟩
        · rw [List.takeWhile_cons_of_neg (by simpa using hd)]
          simp only [List.isEmpty_nil, if_pos]
          rw [ih]
          constructor
          · exact ackMatch_cons a tail
          · rintro ⟨pre, rest, c, hcs, hc⟩
            cases pre with
            | nil =>
              simp only [List.nil_append] at hcs
              rw [← hsuf] at hcs
              have h2 := List.append_cancel_left hcs
              rcases List.cons_eq_cons.mp h2 with ⟨hc0, -⟩
              exact absurd (hc0 ▸ hc) hd
            | cons p ps =>
              rcases List.cons_eq_cons.mp hcs with ⟨-, htail⟩
              exact ⟨ps, rest, c, htail, hc⟩
    · rw [scanJobId]
      rw [if_neg hpre]
      rw [ih]
      constructor
      · exact ackMatch_cons a tail
      · rintro ⟨pre, rest, c, hcs, hc⟩
        cases pre with
        | nil =>
          simp only [List.nil_append] at hcs
          have : sbatchAck.data.isPrefixOf (a :: tail) = true :=
            List.isPrefixOf_iff_prefix.mpr ⟨c :: rest, hcs.symm⟩
          exact absurd this hpre
        | cons p ps =>
          rcases List.cons_eq_cons.mp hcs with ⟨-, htail⟩
          exact ⟨ps, rest, c, htail, hc⟩

/-- C5 counterexample: two refutations at concrete submission outputs.  The
output `"999"` prints `999` as the last numeric token of its only line, yet
`submit_job` fails with a submit error; the output
`"Submitted batch job 12abc"` contains no whitespace-delimited numeric token
at all, yet `submit_job` succeeds and returns `"12"`. -/
theorem C5_counterexample :
    outputTrailingNumericTok "999" = some "999" ∧
    submit_job_parse "999"
      = .error ⟨"submit", "Could not parse job ID from: 999", none⟩ ∧
    outputTrailingNumericTok "Submitted batch job 12abc" = none ∧
    submit_job_parse "Submitted batch job 12abc" = .ok "12" :=
  ⟨by decide, rfl, by decide, rfl⟩

/-- C5 (amended): `submit_job` succeeds exactly when the output contains the
literal text `Submitted batch job ` followed immediately by at least one
digit, returning the digit run after its first occurrence (so
`"Submitted batch job 12345678"` yields `"12345678"`); on any other output
it fails with a `SlurmError` whose operation is `"submit"`. -/
theorem C5_amended_submit_parse :
    submit_job_parse "Submitted batch job 12345678" = .ok "12345678" ∧
    (∀ out : String, (submit_job_parse out).isOk = true ↔
        ∃ (pre rest : List Char) (c : Char),
          out.data = pre ++ sbatchAck.data ++ c :: rest ∧ c.isDigit = true) ∧
    (∀ out : String, scanJobId out.data = none →
        submit_job_parse out
          = .error ⟨"submit", "Could not parse job ID from: " ++ out, none⟩) := by
  refine ⟨rfl, ?_, ?_⟩
  · intro out
    rw [← scanJobId_isSome_iff out.data]
    unfold submit_job_parse
    cases scanJobId out.data <;> simp [Except.isOk, Except.toBool]
  · intro out h
    unfold submit_job_parse
    rw [h]

/-- C5 amended witness: output with no acknowledgement pattern fails with a
submit error. -/
theorem C5_amended_submit_parse_witness :
    submit_job_parse "no job here"
      = .error ⟨"submit", "Could not parse job ID from: no job here", none⟩ :=
  C5_amended_submit_parse.2.2 "no job here" (by decide)

/-- C8: target endpoint resolution follows exactly the claimed precedence:
(1) an explicit target that is a literal `http://`/`https://` URL is
returned outright; (2) otherwise an explicit (truthy) service id with a
registered instance whose `"api"` endpoint is present (nonempty) yields that
endpoint; (3) otherwise the recipe's declared target url; (4) otherwise the
declared endpoint file is read and the value after `ENDPOINT=` on the first
matching line is returned stripped; (5) otherwise resolution yields `none`
without failing. -/
theorem C8_resolve_precedence :
    (∀ (reg : ServiceRegistry) (rf : String → Option String)
        (t : ClientTargetConfig) (tid : String),
        (startsWithStr tid "http://" || startsWithStr tid "https://") = true →
        resolve_target_endpoint reg rf t (some tid) = some tid) ∧
    (∀ (reg : ServiceRegistry) (rf : String → Option String)
        (t : ClientTargetConfig) (tid : String) (s : ServiceInstance)
        (e : String),
        (startsWithStr tid "http://" || startsWithStr tid "https://") = false →
        ¬ tid = "" → reg.get tid = .ok s →
        s.get_endpoint "api" = some e → ¬ e = "" →
        resolve_target_endpoint reg rf t (some tid) = some e) ∧
    (∀ (reg : ServiceRegistry) (rf : String → Option String)
        (t : ClientTargetConfig) (tid : String),
        (startsWithStr tid "http://" || startsWithStr tid "https://") = false →
        (∀ s, reg.get tid = .ok s →
            s.get_endpoint "api" = none ∨ s.get_endpoint "api" = some "") →
        resolve_target_endpoint reg rf t (some tid)
          = resolve_from_recipe rf t) ∧
    (∀ (reg : ServiceRegistry) (rf : String → Option String)
        (t : ClientTargetConfig),
        resolve_target_endpoint reg rf t none = resolve_from_recipe rf t) ∧
    (∀ (rf : String → Option String) (t : ClientTargetConfig) (u : String),
        t.url = some u → resolve_from_recipe rf t = some u) ∧
    (∀ (rf : String → Option String) (t : ClientTargetConfig)
        (path content line : String),
        t.url = none → t.endpoint_file = some path → rf path = some content →
        (splitLines content).find? (fun l => startsWithStr l "ENDPOINT=")
          = some line →
        resolve_from_recipe rf t
          = some (stripStr ⟨line.data.drop "ENDPOINT=".length⟩)) ∧
    (∀ (rf : String → Option String) (t : ClientTargetConfig) (path : String),
        t.url = none → t.endpoint_file = some path → rf path = none →
        resolve_from_recipe rf t = none) ∧
    (∀ (rf : String → Option String) (t : ClientTargetConfig)
        (path content : String),
        t.url = none → t.endpoint_file = some path → rf path = some content →
        (splitLines content).find? (fun l => startsWithStr l "ENDPOINT=")
          = none →
        resolve_from_recipe rf t = none) ∧
    (∀ (rf : String → Option String) (t : ClientTargetConfig),
        t.url = none → t.endpoint_file = none →
        resolve_from_recipe rf t = none) := by
  refine ⟨?_, ?_, ?_, ?_, ?_, ?_, ?_, ?_, ?_⟩
  · intro reg rf t tid h
    by_cases htid : tid = ""
    · rw [htid] at h
      exact absurd h (by decide)
    · simp [resolve_target_endpoint, htid, h]
  · intro reg rf t tid s e h htid hget hep he
    simp [resolve_target_endpoint, htid, h, hget, hep, he]
  · intro reg rf t tid h hep
    by_cases htid : tid = ""
    · simp [resolve_target_endpoint, htid]
    · cases hget : reg.get tid with
      | error err => simp [resolve_target_endpoint, htid, h, hget]
      | ok s =>
        rcases hep s hget with h2 | h2 <;>
          simp [resolve_target_endpoint, htid, h, hget, h2]
  · intro reg rf t
    rfl
  · intro rf t u hu
    simp [resolve_from_recipe, hu]
  · intro rf t path content line hu hf hr hl
    simp [resolve_from_recipe, hu, hf, hr, hl]
  · intro rf t path hu hf hr
    simp [resolve_from_recipe, hu, hf, hr]
  · intro rf t path content hu hf hr hl
    simp [resolve_from_recipe, hu, hf, hr, hl]
  · intro rf t hu hf
    simp [resolve_from_recipe, hu, hf]

/-- C8 witness: a literal URL target wins outright; with no explicit target
the recipe's declared url is returned. -/
theorem C8_resolve_precedence_witness :
    resolve_target_endpoint { services := [] } (fun _ => none)
        { url := some "http://svc:8000" } (some "http://direct:9")
      = some "http://direct:9" ∧
    resolve_target_endpoint { services := [] } (fun _ => none)
        { url := some "http://svc:8000" } none
      = some "http://svc:8000" := by
  constructor
  · exact C8_resolve_precedence.1 { services := [] } (fun _ => none)
      { url := some "http://svc:8000" } "http://direct:9" (by decide)
  · rw [C8_resolve_precedence.2.2.2.1 { services := [] } (fun _ => none)
      { url := some "http://svc:8000" }]
    exact C8_resolve_precedence.2.2.2.2.1 (fun _ => none)
      { url := some "http://svc:8000" } "http://svc:8000" rfl

end InferBench
